import Mathlib

/-!
Shallow embedding of the GLSL shader-object / program-object subsystem of
`rts/Rendering/Shaders/Shader.cpp` (Spring engine excerpt).

Strings (`std::string`) are modelled as `List Char`.  Machine `unsigned int`
arithmetic is modelled as `Nat` reduced `% 2^32` where overflow matters.
`GLfloat` uniform components are modelled by an opaque scalar (`Int`): the
code never performs arithmetic on uniform components, it only stores and
compares them, so any type with decidable equality is a faithful model
(float NaN behaviour is outside the scope of the claims considered here).

GPU / driver effects (`glCompileShader`, `glLinkProgram`, info logs,
`glGetUniformLocation`, the `UseShaderCache` config switch) are modelled by
an explicit `Driver` record, and the side effects of each operation are
returned as an explicit `GLEvent` trace.
-/

namespace SpringShader

/-- `std::string` model. -/
abbrev Str := List Char

/-- Convert a Lean string literal to the `Str` model. -/
def str (s : String) : Str := s.data

/-- `s.substr pos len` (clamped, as `std::string::substr`). -/
def subStr (s : Str) (pos len : Nat) : Str := (s.drop pos).take len

/-- `s.erase(pos, len)` (clamped, as `std::string::erase`). -/
def eraseStr (s : Str) (pos len : Nat) : Str := s.take pos ++ (s.drop pos).drop len

/-- Whether `pat` occurs at the very beginning of `s`. -/
def isPrefixOfStr (pat s : Str) : Bool :=
  match pat, s with
  | [], _ => true
  | _ :: _, [] => false
  | p :: ps, c :: cs => p == c && isPrefixOfStr ps cs

/-- `s.find(pat)`: index of the first occurrence of `pat` in `s`,
`none` standing for `std::string::npos`. -/
def findStr (s pat : Str) : Option Nat :=
  match s with
  | [] => if pat.isEmpty then some 0 else none
  | _ :: cs =>
    if isPrefixOfStr pat s then some 0
    else (findStr cs pat).map (· + 1)

/-- `s.find(c, from)`: first occurrence of character `c` at index ≥ `from`. -/
def findCharFrom (s : Str) (c : Char) (start : Nat) : Option Nat :=
  match findStr (s.drop start) [c] with
  | some i => some (start + i)
  | none => none

/-- `s.find(pat) != std::string::npos`. -/
def containsStr (s pat : Str) : Bool := (findStr s pat).isSome

/-- `EnsureEndsWith(&str, "\n")` (from `System/StringUtil.h`): appends the
character when the string does not already end with it. -/
def ensureEndsWith (s : Str) (c : Char) : Str :=
  if s.getLast? == some c then s else s ++ [c]

/-! ## HsiehHash

Modelled from the spec: `System/Sync/HsiehHash.h` is not under `src/`; the
spec describes it as "a fixed avalanche hash function seeded with a
constant".  We embed the Hsieh "SuperFastHash" avalanche algorithm over the
byte list of the string, with all 32-bit arithmetic taken `% 2^32`
(bytes are taken unsigned; which fixed avalanche function is used is
irrelevant to the claims, which only need determinism in the hashed data). -/

/-- 2^32 modulus for `unsigned int`. -/
def M32 : Nat := 4294967296

/-- 32-bit truncating addition. -/
def add32 (a b : Nat) : Nat := (a + b) % M32

/-- 32-bit left shift. -/
def shl32 (a k : Nat) : Nat := (a * 2 ^ k) % M32

/-- Logical right shift. -/
def shr32 (a k : Nat) : Nat := a / 2 ^ k

/-- 32-bit xor. -/
def xor32 (a b : Nat) : Nat := Nat.xor a b % M32

/-- `get16bits`: little-endian 16-bit read of two bytes. -/
def get16 (a b : Nat) : Nat := a + b * 256

/-- Main loop of the Hsieh hash: consumes four bytes per round. -/
def hsiehRounds (hash : Nat) : List Nat → Nat × List Nat
  | a :: b :: c :: d :: rest =>
    let h := add32 hash (get16 a b)
    let tmp := xor32 (shl32 (get16 c d) 11) h
    let h := xor32 (shl32 h 16) tmp
    let h := add32 h (shr32 h 11)
    hsiehRounds h rest
  | rest => (hash, rest)

/-- Tail handling for the 1-3 remaining bytes of the Hsieh hash. -/
def hsiehTail (hash : Nat) : List Nat → Nat
  | [a, b, c] =>
    let h := add32 hash (get16 a b)
    let h := xor32 h (shl32 h 16)
    let h := xor32 h (shl32 c 18)
    add32 h (shr32 h 11)
  | [a, b] =>
    let h := add32 hash (get16 a b)
    let h := xor32 h (shl32 h 11)
    add32 h (shr32 h 17)
  | [a] =>
    let h := add32 hash a
    let h := xor32 h (shl32 h 10)
    add32 h (shr32 h 1)
  | _ => hash

/-- Final avalanche mixing of the Hsieh hash. -/
def hsiehFinal (hash : Nat) : Nat :=
  let h := xor32 hash (shl32 hash 3)
  let h := add32 h (shr32 h 5)
  let h := xor32 h (shl32 h 4)
  let h := add32 h (shr32 h 17)
  let h := xor32 h (shl32 h 25)
  add32 h (shr32 h 6)

/-- `HsiehHash(data, size, hash)` over a byte list. -/
def HsiehHash (data : List Nat) (hash : Nat) : Nat :=
  let (h, rest) := hsiehRounds hash data
  hsiehFinal (hsiehTail h rest)

/-- Byte view of a string (the C++ code hashes the raw `std::string` bytes). -/
def strBytes (s : Str) : List Nat := s.map Char.toNat

/-- `hashString` from `System/StringUtil.h`.  Modelled from the spec: the
header is not under `src/`; the spec only requires "a stable string hash of
the uniform name", so we reuse the Hsieh avalanche hash with a zero seed. -/
def hashString (s : Str) : Nat := HsiehHash (strBytes s) 0

/-! ## Uniform values and uniform state -/

/-- Opaque model of `GLfloat` (stored and compared, never computed with). -/
abbrev GLfloat := Int

/-- The value tuples accepted by the `UniformState::Set*` family: 1-4
integer or float components, 2/3/4-component vectors, and square matrices
with a transpose flag. -/
inductive UniformValue where
  | i1 (a : Int)
  | i2 (a b : Int)
  | i3 (a b c : Int)
  | i4 (a b c d : Int)
  | f1 (a : GLfloat)
  | f2 (a b : GLfloat)
  | f3 (a b c : GLfloat)
  | f4 (a b c d : GLfloat)
  | iv (n : Nat) (vs : List Int)
  | fv (n : Nat) (vs : List GLfloat)
  | mat (n : Nat) (transp : Bool) (vs : List GLfloat)
  deriving DecidableEq, Repr

/-- `GL_INVALID_INDEX` location sentinel. -/
def GL_INVALID_INDEX : Int := -1

/-- `Shader::UniformState` (declared in `Rendering/Shaders/Shader.h`, not
under `src/`).  Modelled from the spec: "{ name, GPU location (or not-found
sentinel), last-set value, initialized flag }". -/
structure UniformState where
  name : Str
  location : Int := GL_INVALID_INDEX
  initialized : Bool := false
  value : UniformValue := .i1 0
  deriving DecidableEq, Repr

namespace UniformState

/-- `UniformState::SetLocation`. -/
def SetLocation (us : UniformState) (loc : Int) : UniformState :=
  { us with location := loc }

/-- `UniformState::GetLocation`. -/
def GetLocation (us : UniformState) : Int := us.location

/-- `UniformState::Set*` family.  Modelled from the spec: "Set(...)
variants compare arity-matched value tuples ... against the cached value;
returns whether a GPU write is required", and "if the new value differs
from the cached value (per-component comparison), it writes to the GPU and
updates the cache, otherwise it is a no-op".  Returns (needsWrite, new
state); an uninitialized state always requires a write. -/
def Set (us : UniformState) (v : UniformValue) : Bool × UniformState :=
  if us.initialized && us.value == v then
    (false, us)
  else
    (true, { us with value := v, initialized := true })

end UniformState

/-! ## GL driver environment and effect traces -/

/-- One observable GL / logging side effect. -/
inductive GLEvent where
  | createProgram (id : Nat)
  | deleteProgram (id : Nat)
  | createShader (id : Nat)
  | compileShader (id : Nat) (src : Str)
  | attachShader (prog shader : Nat)
  | linkProgram (id : Nat)
  | useProgram (id : Nat)
  | uniformWrite (loc : Int) (v : UniformValue)
  | cacheFind (h : Nat)
  | cachePush (h id : Nat)
  | logError (msg : Str)
  deriving DecidableEq, Repr

/-- The GL driver / configuration environment: compilation and link results
with their info logs, uniform-location resolution, and the `UseShaderCache`
configuration switch (`configHandler->GetBool("UseShaderCache")`). -/
structure Driver where
  /-- `glCompileShader` + `GL_COMPILE_STATUS` + info log, as a function of the
  assembled source handed to `glShaderSource`. -/
  compile : Str → Bool × Str
  /-- `GL_LINK_STATUS` after `glLinkProgram`. -/
  linkOk : Bool
  /-- linker info log appended after `glLinkProgram`. -/
  linkLog : Str
  /-- `GL_VALIDATE_STATUS` after `glValidateProgram`. -/
  validateOk : Bool
  /-- validation info log. -/
  validateLog : Str
  /-- `glGetUniformLocation(progId, name)`. -/
  uniformLoc : Nat → Str → Int
  /-- `configHandler->GetBool("UseShaderCache")`. -/
  useShaderCache : Bool

/-- Virtual filesystem for `CFileHandler` (`System/FileSystem/FileHandler.h`,
not under `src/`): maps a path to the file content when the file exists. -/
abbrev FileSys := Str → Option Str

/-! ## Shader flags

`Shader::ShaderFlags` is declared in `Rendering/Shaders/ShaderStates.h`,
not under `src/`.  Modelled from the spec: `MaybeReload` is a "no-op if
neither the definition flags changed nor this is the first reload"; the
flags expose their definition string (`GetString`), whether a hash was ever
computed (`HashSet`), whether the flags changed since the last hash update
(`Updated`), and `UpdateHash` which recomputes and stores the hash. -/
structure ShaderFlags where
  /-- accumulated definition-flag text, as returned by `GetString()`. -/
  defs : Str := []
  /-- last hash computed by `UpdateHash()`. -/
  fhash : Nat := 0
  /-- whether `UpdateHash()` has ever been called. -/
  hashSet : Bool := false
  deriving DecidableEq, Repr

namespace ShaderFlags

/-- `ShaderFlags::GetString`. -/
def GetString (sf : ShaderFlags) : Str := sf.defs

/-- `ShaderFlags::HashSet`. -/
def HashSet (sf : ShaderFlags) : Bool := sf.hashSet

/-- `ShaderFlags::Updated`: the definition flags changed since the hash was
last set. -/
def Updated (sf : ShaderFlags) : Bool := hashString sf.defs != sf.fhash

/-- `ShaderFlags::UpdateHash`: recomputes the hash of the flag string,
stores it and returns it. -/
def UpdateHash (sf : ShaderFlags) : Nat × ShaderFlags :=
  let h := hashString sf.defs
  (h, { sf with fhash := h, hashSet := true })

end ShaderFlags

/-! ## Shader objects -/

/-- `Shader::GLSLShaderObject` data (fields from `Shader.h`): stage type,
the source descriptor (inline text or file name), the cached source text and
the raw/modifiable definition strings. -/
structure GLSLShaderObject where
  type : Nat
  srcData : Str
  srcText : Str := []
  rawDefStrs : Str := []
  modDefStrs : Str := []
  deriving DecidableEq, Repr

/-- `glCreateShader`d compile result handed back by
`GLSLShaderObject::CreateAndCompileShaderObject`. -/
structure CompiledShaderObject where
  id : Nat := 0
  valid : Bool := false
  deriving DecidableEq, Repr

/-- The marker whose presence makes a source descriptor count as inline
source text. -/
def mainMarker : Str := str "void main()"

/-- `GetShaderSource(srcData)` (static, `Shader.cpp:83`): returns the
resolved source together with the error-log events it produced. -/
def GetShaderSource (fs : FileSys) (srcData : Str) : Str × List GLEvent :=
  if containsStr srcData mainMarker then
    (srcData, [])
  else
    let soPath := str "shaders/" ++ srcData
    match fs soPath with
    | some content => (content, [])
    | none => ([], [.logError (str "file not found: " ++ soPath)])

/-- `ExtractVersionDirective(src, version)` (static, `Shader.cpp:105`):
when `src` contains `"#version "`, copies the directive line (up to and
including the newline, or to the end of the string when no newline
follows) into `version` and erases it from `src`.  Returns
(found, src-after, version-after). -/
def ExtractVersionDirective (src version : Str) : Bool × Str × Str :=
  match findStr src (str "#version ") with
  | some pos =>
    let len := match findCharFrom src '\n' pos with
      | some e => e + 1 - pos
      | none => src.length - pos
    (true, eraseStr src pos len, subStr src pos len)
  | none => (false, src, version)

/-- `IShaderObject::GetHash` (`Shader.cpp:132`): chained Hsieh hash of the
source text and both definition strings, seeded with 127. -/
def GLSLShaderObject.GetHash (so : GLSLShaderObject) : Nat :=
  let hash := 127
  let hash := HsiehHash (strBytes so.srcText) hash
  let hash := HsiehHash (strBytes so.modDefStrs) hash
  HsiehHash (strBytes so.rawDefStrs) hash

/-- `IShaderObject::ReloadFromTextOrFile` (`Shader.cpp:141`): re-resolves
the source from `srcData` and stores it when it changed; returns whether it
changed. -/
def GLSLShaderObject.ReloadFromTextOrFile (fs : FileSys) (so : GLSLShaderObject) :
    Bool × GLSLShaderObject × List GLEvent :=
  let (newText, evs) := GetShaderSource fs so.srcData
  if newText != so.srcText then
    (true, { so with srcText := newText }, evs)
  else
    (false, so, evs)

/-- `IShaderObject::SetDefinitions` (declared in `Shader.h`, not under
`src/`).  Modelled from the spec: stores the program's flag string as the
shader's "modifiable definition string". -/
def GLSLShaderObject.SetDefinitions (so : GLSLShaderObject) (defs : Str) : GLSLShaderObject :=
  { so with modDefStrs := defs }

/-- The final source assembled by `CreateAndCompileShaderObject`
(`Shader.cpp:538-558`): version pragma extracted from source and then from
the definitions (the definitions' pragma, when present, overwrites the
source's), then the seven-part ordered concatenation handed to
`glShaderSource`. -/
def GLSLShaderObject.AssembleSource (so : GLSLShaderObject) : Str :=
  let sourceStr := so.srcText
  let defFlags := so.rawDefStrs ++ str "\n" ++ so.modDefStrs
  let versionStr : Str := []
  let (_, sourceStr, versionStr) := ExtractVersionDirective sourceStr versionStr
  let (_, defFlags, versionStr) := ExtractVersionDirective defFlags versionStr
  let versionStr := if versionStr.isEmpty then versionStr else ensureEndsWith versionStr '\n'
  let defFlags := if defFlags.isEmpty then defFlags else ensureEndsWith defFlags '\n'
  str "// SHADER VERSION\n" ++ versionStr ++
  str "// SHADER FLAGS\n" ++ defFlags ++
  str "// SHADER SOURCE\n" ++ str "#line 1\n" ++ sourceStr

/-- `GLSLShaderObject::CreateAndCompileShaderObject` (`Shader.cpp:532`):
creates a shader id, hands the assembled source to the driver and compiles;
on failure appends the compile log to the given program log.  Returns the
compiled object, the updated program log, the events and the next fresh GL
id. -/
def GLSLShaderObject.CreateAndCompileShaderObject (driver : Driver)
    (so : GLSLShaderObject) (programLog : Str) (nextId : Nat) :
    CompiledShaderObject × Str × List GLEvent × Nat :=
  let src := so.AssembleSource
  let csoId := nextId
  let res := driver.compile src
  let cso : CompiledShaderObject := { id := csoId, valid := res.1 }
  let evs := [GLEvent.createShader csoId, GLEvent.compileShader csoId src]
  if res.1 then
    (cso, programLog, evs, nextId + 1)
  else
    (cso, programLog ++ res.2, evs, nextId + 1)

/-! ## Program cache -/

/-- `CShaderHandler::ShaderCache` (`Rendering/Shaders/ShaderHandler.h`, not
under `src/`).  Modelled from the spec: a process-wide table mapping a
content hash to a previously-linked native program handle. -/
abbrev ShaderCache := List (Nat × Nat)

/-- `ShaderCache::Find(hash)`.  Modelled from the spec: "returns existing
native handle or a none sentinel" (0). -/
def ShaderCache.Find (cache : ShaderCache) (h : Nat) : Nat :=
  match cache.lookup h with
  | some id => id
  | none => 0

/-- `ShaderCache::Push(hash, handle)`.  Modelled from the spec: "registers
a handle under a hash if not already present"; returns whether the handle
was newly registered. -/
def ShaderCache.Push (cache : ShaderCache) (h id : Nat) : Bool × ShaderCache :=
  if (cache.lookup h).isSome then
    (false, cache)
  else
    (true, (h, id) :: cache)

/-! ## Program objects -/

/-- `Shader::GLSLProgramObject` (fields from `Shader.h`): native handle,
aggregate hash, validity and bound flags, the uniform-state table keyed by
`hashString(name)`, the list of registered uniform name-hashes
(`uniformLocs`), the owned shader objects, the diagnostic log and the
definition flags. -/
structure GLSLProgramObject where
  name : Str
  glid : Nat := 0
  hash : Nat := 0
  valid : Bool := false
  bound : Bool := false
  uniformStates : List (Nat × UniformState) := []
  uniformLocs : List Nat := []
  shaderObjs : List GLSLShaderObject := []
  log : Str := []
  shaderFlags : ShaderFlags := {}
  deriving Repr

/-- Assoc-list update: replaces the value stored under `k` (if any). -/
def updateUS (states : List (Nat × UniformState)) (k : Nat) (us : UniformState) :
    List (Nat × UniformState) :=
  states.map (fun p => if p.1 == k then (p.1, us) else p)

namespace GLSLProgramObject

/-- `IProgramObject::IsBound` (`Shader.h`). -/
def IsBound (po : GLSLProgramObject) : Bool := po.bound

/-- `IProgramObject::GetNewUniformState` (`Shader.cpp:212`): emplaces a
fresh state under `hashString(name)` (keeping an existing entry if the key
is already present, as `std::unordered_map::emplace` does) and resolves its
location via `glGetUniformLocation`. -/
def GetNewUniformState (driver : Driver) (po : GLSLProgramObject) (nm : Str) :
    UniformState × GLSLProgramObject :=
  let h := hashString nm
  let us0 : UniformState :=
    match po.uniformStates.lookup h with
    | some us => us
    | none => { name := nm }
  let us := us0.SetLocation (driver.uniformLoc po.glid nm)
  let states :=
    match po.uniformStates.lookup h with
    | some _ => updateUS po.uniformStates h us
    | none => po.uniformStates ++ [(h, us)]
  (us, { po with uniformStates := states })

/-- `IProgramObject::GetUniformLocation` (declared in `Shader.h`, not under
`src/`).  Modelled from the spec: resolves the named uniform's cached state
(creating it if missing) and returns its location. -/
def GetUniformLocation (driver : Driver) (po : GLSLProgramObject) (nm : Str) :
    Int × GLSLProgramObject :=
  match po.uniformStates.lookup (hashString nm) with
  | some us => (us.GetLocation, po)
  | none =>
    let (us, po) := po.GetNewUniformState driver nm
    (us.GetLocation, po)

/-- `GLSLProgramObject::SetUniformLocation` (`Shader.cpp:482`): registers
the name-hash in `uniformLocs` and resolves the named uniform. -/
def SetUniformLocation (driver : Driver) (po : GLSLProgramObject) (nm : Str) :
    GLSLProgramObject :=
  let po := { po with uniformLocs := po.uniformLocs ++ [hashString nm] }
  (po.GetUniformLocation driver nm).2

/-- The `GLSLProgramObject::SetUniform(UniformState*, ...)` overload family
(`Shader.cpp:488-506`): asserts the program is bound, compares against the
cached state and issues a `glUniform*` write only when the value changed.
Returns the updated state and the GPU-write trace. -/
def SetUniform (po : GLSLProgramObject) (uState : UniformState) (v : UniformValue) :
    UniformState × List GLEvent :=
  let _ := po.IsBound  -- assert(IsBound())
  let (needsWrite, us) := uState.Set v
  if needsWrite then
    (us, [.uniformWrite us.GetLocation v])
  else
    (us, [])

/-- Common core of the index-based
`GLSLProgramObject::SetUniform{1i..4f,2iv..4fv,Matrix2fv..Matrix4fv}`
family (`Shader.cpp:509-527`): looks up `uniformLocs[idx]` in the
uniform-state table; when the hash has no entry the call does nothing,
otherwise it compares-and-sets and issues a `glUniform*` write only when
needed.  (An out-of-range `idx` is undefined behaviour in the C++ and is
modelled as a no-op.) -/
def SetUniformIdx (po : GLSLProgramObject) (idx : Nat) (v : UniformValue) :
    GLSLProgramObject × List GLEvent :=
  let _ := po.IsBound  -- assert(IsBound())
  match po.uniformLocs[idx]? with
  | none => (po, [])
  | some h =>
    match po.uniformStates.lookup h with
    | none => (po, [])
    | some us =>
      let (needsWrite, us') := us.Set v
      let po' := { po with uniformStates := updateUS po.uniformStates h us' }
      if needsWrite then
        (po', [.uniformWrite us'.GetLocation v])
      else
        (po', [])

/-- `GLSLProgramObject::SetUniform1i` (`Shader.cpp:509`). -/
def SetUniform1i (po : GLSLProgramObject) (idx : Nat) (a : Int) := po.SetUniformIdx idx (.i1 a)
/-- `GLSLProgramObject::SetUniform2i` (`Shader.cpp:510`). -/
def SetUniform2i (po : GLSLProgramObject) (idx : Nat) (a b : Int) := po.SetUniformIdx idx (.i2 a b)
/-- `GLSLProgramObject::SetUniform3i` (`Shader.cpp:511`). -/
def SetUniform3i (po : GLSLProgramObject) (idx : Nat) (a b c : Int) := po.SetUniformIdx idx (.i3 a b c)
/-- `GLSLProgramObject::SetUniform4i` (`Shader.cpp:512`). -/
def SetUniform4i (po : GLSLProgramObject) (idx : Nat) (a b c d : Int) := po.SetUniformIdx idx (.i4 a b c d)
/-- `GLSLProgramObject::SetUniform1f` (`Shader.cpp:513`). -/
def SetUniform1f (po : GLSLProgramObject) (idx : Nat) (a : GLfloat) := po.SetUniformIdx idx (.f1 a)
/-- `GLSLProgramObject::SetUniform2f` (`Shader.cpp:514`). -/
def SetUniform2f (po : GLSLProgramObject) (idx : Nat) (a b : GLfloat) := po.SetUniformIdx idx (.f2 a b)
/-- `GLSLProgramObject::SetUniform3f` (`Shader.cpp:515`). -/
def SetUniform3f (po : GLSLProgramObject) (idx : Nat) (a b c : GLfloat) := po.SetUniformIdx idx (.f3 a b c)
/-- `GLSLProgramObject::SetUniform4f` (`Shader.cpp:516`). -/
def SetUniform4f (po : GLSLProgramObject) (idx : Nat) (a b c d : GLfloat) := po.SetUniformIdx idx (.f4 a b c d)
/-- `GLSLProgramObject::SetUniform2iv` (`Shader.cpp:518`). -/
def SetUniform2iv (po : GLSLProgramObject) (idx : Nat) (v : List Int) := po.SetUniformIdx idx (.iv 2 (v.take 2))
/-- `GLSLProgramObject::SetUniform3iv` (`Shader.cpp:519`). -/
def SetUniform3iv (po : GLSLProgramObject) (idx : Nat) (v : List Int) := po.SetUniformIdx idx (.iv 3 (v.take 3))
/-- `GLSLProgramObject::SetUniform4iv` (`Shader.cpp:520`). -/
def SetUniform4iv (po : GLSLProgramObject) (idx : Nat) (v : List Int) := po.SetUniformIdx idx (.iv 4 (v.take 4))
/-- `GLSLProgramObject::SetUniform2fv` (`Shader.cpp:521`). -/
def SetUniform2fv (po : GLSLProgramObject) (idx : Nat) (v : List GLfloat) := po.SetUniformIdx idx (.fv 2 (v.take 2))
/-- `GLSLProgramObject::SetUniform3fv` (`Shader.cpp:522`). -/
def SetUniform3fv (po : GLSLProgramObject) (idx : Nat) (v : List GLfloat) := po.SetUniformIdx idx (.fv 3 (v.take 3))
/-- `GLSLProgramObject::SetUniform4fv` (`Shader.cpp:523`). -/
def SetUniform4fv (po : GLSLProgramObject) (idx : Nat) (v : List GLfloat) := po.SetUniformIdx idx (.fv 4 (v.take 4))
/-- `GLSLProgramObject::SetUniformMatrix2fv` (`Shader.cpp:525`). -/
def SetUniformMatrix2fv (po : GLSLProgramObject) (idx : Nat) (transp : Bool) (v : List GLfloat) := po.SetUniformIdx idx (.mat 2 transp (v.take 4))
/-- `GLSLProgramObject::SetUniformMatrix3fv` (`Shader.cpp:526`). -/
def SetUniformMatrix3fv (po : GLSLProgramObject) (idx : Nat) (transp : Bool) (v : List GLfloat) := po.SetUniformIdx idx (.mat 3 transp (v.take 9))
/-- `GLSLProgramObject::SetUniformMatrix4fv` (`Shader.cpp:527`). -/
def SetUniformMatrix4fv (po : GLSLProgramObject) (idx : Nat) (transp : Bool) (v : List GLfloat) := po.SetUniformIdx idx (.mat 4 transp (v.take 16))

end GLSLProgramObject

/-- `GLSLProgramObject::ClearUniformLocations` (`Shader.cpp:437`): resets
every cached uniform location to `GL_INVALID_INDEX`, touching nothing
else. -/
def ClearUniformLocations (po : GLSLProgramObject) : GLSLProgramObject :=
  { po with
    uniformStates := po.uniformStates.map
      (fun p => (p.1, p.2.SetLocation GL_INVALID_INDEX)) }

/-- `GLSLProgramObject::SetShaderDefinitions` (`Shader.cpp:444`): pushes
the flag string into every shader object's modifiable definitions. -/
def SetShaderDefinitions (po : GLSLProgramObject) (defs : Str) : GLSLProgramObject :=
  { po with shaderObjs := po.shaderObjs.map (·.SetDefinitions defs) }

/-- The loop of `GLSLProgramObject::ReloadShaderObjects`
(`Shader.cpp:453-455`): reloads each shader object in order, collecting the
reloaded objects and the emitted events. -/
def reloadAllShaderObjects (fs : FileSys) :
    List GLSLShaderObject → List GLSLShaderObject × List GLEvent
  | [] => ([], [])
  | so :: rest =>
    let r := so.ReloadFromTextOrFile fs
    let rs := reloadAllShaderObjects fs rest
    (r.2.1 :: rs.1, r.2.2 ++ rs.2)

/-- `GLSLProgramObject::ReloadShaderObjects` (`Shader.cpp:451`): re-resolves
every shader object's source from text or file. -/
def ReloadShaderObjects (fs : FileSys) (po : GLSLProgramObject) :
    GLSLProgramObject × List GLEvent :=
  let r := reloadAllShaderObjects fs po.shaderObjs
  ({ po with shaderObjs := r.1 }, r.2)

/-- `GLSLProgramObject::RecalculateShaderHash` (`Shader.cpp:458`): the
aggregate hash is the flags hash xor'ed with every shader object's hash. -/
def RecalculateShaderHash (po : GLSLProgramObject) : GLSLProgramObject :=
  let (h, sf) := po.shaderFlags.UpdateHash
  let h := po.shaderObjs.foldl (fun acc so => Nat.xor acc so.GetHash) h
  { po with hash := h, shaderFlags := sf }

/-- `GLSLProgramObject::ReloadState` (`Shader.cpp:423`): clears the log and
the uniform locations, refreshes definitions (and, when requested, the
shader sources), recomputes the hash, and reports whether any shader
objects remain. -/
def GLSLProgramObject.ReloadState (fs : FileSys) (po : GLSLProgramObject)
    (reloadShaderObjs : Bool) : Bool × GLSLProgramObject × List GLEvent :=
  let po := { po with log := [] }
  let po := ClearUniformLocations po
  let po := SetShaderDefinitions po po.shaderFlags.GetString
  let res := if reloadShaderObjs then ReloadShaderObjects fs po else (po, [])
  let po := RecalculateShaderHash res.1
  (!po.shaderObjs.isEmpty, po, res.2)

/-- The shader-object loop of `GLSLProgramObject::CreateAndLink`
(`Shader.cpp:272-290`): compiles each shader object in order, attaching the
valid ones and recording in the flag whether every compile succeeded;
threads the accumulated program log, the event trace and the fresh-id
supply. -/
def compileAttachAll (driver : Driver) (progId : Nat) :
    List GLSLShaderObject → Bool → Str → List GLEvent → Nat →
    Bool × Str × List GLEvent × Nat
  | [], ok, plog, evs, nid => (ok, plog, evs, nid)
  | so :: rest, ok, plog, evs, nid =>
    let res := so.CreateAndCompileShaderObject driver plog nid
    if res.1.valid then
      compileAttachAll driver progId rest ok res.2.1
        (evs ++ res.2.2.1 ++ [GLEvent.attachShader progId res.1.id]) res.2.2.2
    else
      compileAttachAll driver progId rest false res.2.1 (evs ++ res.2.2.1) res.2.2.2

/-- `GLSLProgramObject::CreateAndLink` (`Shader.cpp:264`): creates a fresh
program id, compiles and attaches all shader objects (compile failures are
collected rather than aborting), then links and appends the linker log;
returns the link status.  `glCreateProgram` is modelled as always handing
out a fresh nonzero id. -/
def GLSLProgramObject.CreateAndLink (driver : Driver) (po : GLSLProgramObject)
    (nextId : Nat) : Bool × GLSLProgramObject × List GLEvent × Nat :=
  let progId := nextId + 1
  let res :=
    compileAttachAll driver progId po.shaderObjs true po.log
      [GLEvent.createProgram progId] (progId + 1)
  if !res.1 then
    (false, { po with glid := progId, log := res.2.1 }, res.2.2.1, res.2.2.2)
  else
    (driver.linkOk,
     { po with glid := progId, log := res.2.1 ++ driver.linkLog },
     res.2.2.1 ++ [GLEvent.linkProgram progId],
     res.2.2.2)

/-- `GLSLProgramObject::Validate` (`Shader.cpp:323`): validates the program,
appends the validation log, returns the validation status. -/
def GLSLProgramObject.Validate (driver : Driver) (po : GLSLProgramObject) :
    Bool × GLSLProgramObject :=
  (driver.validateOk, { po with log := po.log ++ driver.validateLog })

/-- `GLSLCopyState(tgtProgID, srcProgID, &uniformStates)`
(`Rendering/Shaders/GLSLCopyState.cpp`, not under `src/`).  Modelled from
the spec: "copies over recognized uniform state from the old program
instance (by name) so previously-set values are not lost across a relink —
each uniform must be re-resolved to its (possibly different) native
location"; the table entries keep their names and values, and each location
is re-resolved against the target program. -/
def GLSLCopyState (driver : Driver) (tgtProgID : Nat) (_srcProgID : Nat)
    (states : List (Nat × UniformState)) : List (Nat × UniformState) :=
  states.map (fun p => (p.1, p.2.SetLocation (driver.uniformLoc tgtProgID p.2.name)))

/-- `GLSLProgramObject::ValidateAndCopyUniforms` (`Shader.cpp:303`): when
validation (or the stored validity flag, when validation is skipped) holds,
fills in the uniform states from the old program instance and reports
success; otherwise warns and reports failure. -/
def GLSLProgramObject.ValidateAndCopyUniforms (driver : Driver)
    (po : GLSLProgramObject) (tgtProgID srcProgID : Nat) (validate : Bool) :
    Bool × GLSLProgramObject × List GLEvent :=
  let vres := if validate then po.Validate driver else (po.valid, po)
  if vres.1 then
    (true,
     { vres.2 with
       uniformStates := GLSLCopyState driver tgtProgID srcProgID vres.2.uniformStates },
     [])
  else
    (false, vres.2, if vres.2.log.isEmpty then [] else [.logError vres.2.log])

/-- Result of a reload-level operation: the program object, the shader
cache, the fresh-id supply and the emitted GL event trace. -/
structure ReloadResult where
  po : GLSLProgramObject
  cache : ShaderCache
  nextId : Nat
  events : List GLEvent
  deriving Repr

/-- The `UpdateProg` lambda of `Reload` (`Shader.cpp:398-399`):
`glid = CachedProg(hash)` — the cache is consulted only when enabled —
and on a miss (`0`) the program is compiled and linked afresh. -/
def reloadUpdateProg (driver : Driver) (useCache : Bool) (cache : ShaderCache)
    (po1 : GLSLProgramObject) (nextId : Nat) :
    Bool × GLSLProgramObject × List GLEvent × Nat :=
  let cached := if useCache then cache.Find po1.hash else 0
  if cached != 0 then
    (true, { po1 with glid := cached }, [], nextId)
  else
    GLSLProgramObject.CreateAndLink driver { po1 with glid := 0 } nextId

/-- The validity assignment of `Reload` (`Shader.cpp:408`):
`valid = (UpdateProg(hash) && (ValidateAndCopyUniforms(glid, _glid * isValid,
validate) || true))` — `ValidateAndCopyUniforms` runs only on link success
and its result is discarded via `|| true`. -/
def reloadFinish (driver : Driver) (validate isValid : Bool) (oldGlid : Nat)
    (upd : Bool × GLSLProgramObject × List GLEvent × Nat) :
    GLSLProgramObject × List GLEvent :=
  if upd.1 then
    let vcu := upd.2.1.ValidateAndCopyUniforms driver upd.2.1.glid
      (if isValid then oldGlid else 0) validate
    ({ vcu.2.1 with valid := true }, vcu.2.2)
  else
    ({ upd.2.1 with valid := false }, [])

/-- The tail of `Reload` (`Shader.cpp:410-419`): push the pre-reload
`(hash, id)` pair into the cache when enabled, and delete the pre-reload
handle when neither the cache took it nor the hash is unchanged. -/
def cacheRetire (useCache : Bool) (cache : ShaderCache) (oldHash oldGlid : Nat)
    (po3 : GLSLProgramObject) (nid : Nat) (evs : List GLEvent) : ReloadResult :=
  if useCache then
    let pr := cache.Push oldHash oldGlid
    let evs := evs ++ [GLEvent.cachePush oldHash oldGlid]
    if pr.1 then
      ⟨po3, pr.2, nid, evs⟩
    else if po3.hash == oldHash then
      ⟨po3, pr.2, nid, evs⟩
    else
      ⟨po3, pr.2, nid, evs ++ [.deleteProgram oldGlid]⟩
  else
    if po3.hash == oldHash then
      ⟨po3, cache, nid, evs⟩
    else
      ⟨po3, cache, nid, evs ++ [.deleteProgram oldGlid]⟩

/-- `GLSLProgramObject::Reload(force, validate)` (`Shader.cpp:383`),
faithfully following the source: early-exits invalid when no shader objects
remain; otherwise resolves the post-reload hash against the cache (when
enabled and the program was valid), recompiles and links on a miss, runs
`ValidateAndCopyUniforms` only on link success (its result is discarded via
`|| true`), pushes the pre-reload `(hash, id)` pair into the cache, and
deletes the pre-reload handle when the hash changed and the cache did not
take it. -/
def GLSLProgramObject.Reload (driver : Driver) (fs : FileSys)
    (force validate : Bool) (po : GLSLProgramObject) (cache : ShaderCache)
    (nextId : Nat) : ReloadResult :=
  let oldGlid := po.glid
  let oldHash := po.hash
  let isValid := po.valid
  let useCache := isValid && driver.useShaderCache
  let rs := po.ReloadState fs (force || !isValid || (oldGlid == 0))
  if !rs.1 then
    ⟨{ rs.2.1 with valid := false }, cache, nextId, rs.2.2⟩
  else
    let findEvs := if useCache then [GLEvent.cacheFind rs.2.1.hash] else []
    let upd := reloadUpdateProg driver useCache cache rs.2.1 nextId
    let post := reloadFinish driver validate isValid oldGlid upd
    cacheRetire useCache cache oldHash oldGlid post.1 upd.2.2.2
      (rs.2.2 ++ findEvs ++ upd.2.2.1 ++ post.2)

/-- `IProgramObject::MaybeReload(validate)` (`Shader.cpp:183`): skips the
reload entirely when a flags hash is set and the flags did not change. -/
def GLSLProgramObject.MaybeReload (driver : Driver) (fs : FileSys)
    (validate : Bool) (po : GLSLProgramObject) (cache : ShaderCache)
    (nextId : Nat) : ReloadResult :=
  if po.shaderFlags.HashSet && !po.shaderFlags.Updated then
    ⟨po, cache, nextId, []⟩
  else
    po.Reload driver fs (!po.shaderFlags.HashSet) validate cache nextId

/-- `GLSLProgramObject::Enable` (`Shader.cpp:252`): `MaybeReload(true)`,
`glUseProgram(glid)`, then `IProgramObject::Enable()`.  The base-class
`Enable` is declared in `Shader.h` (not under `src/`); modelled from the
spec: "`Enable()` additionally marks the program bound". -/
def GLSLProgramObject.Enable (driver : Driver) (fs : FileSys)
    (po : GLSLProgramObject) (cache : ShaderCache) (nextId : Nat) : ReloadResult :=
  let r := po.MaybeReload driver fs true cache nextId
  ⟨{ r.po with bound := true }, r.cache, r.nextId,
   r.events ++ [.useProgram r.po.glid]⟩

/-- `GLSLProgramObject::Disable` (`Shader.cpp:258`): `glUseProgram(0)` and
clears the bound flag (base-class `Disable` modelled from the spec, like
`Enable`). -/
def GLSLProgramObject.Disable (po : GLSLProgramObject) :
    GLSLProgramObject × List GLEvent :=
  ({ po with bound := false }, [.useProgram 0])

/-! ## Helper definitions for the verification -/

/-- Pointwise value-map over the uniform-state table (keys untouched). -/
def mapVals (f : UniformState → UniformState) (states : List (Nat × UniformState)) :
    List (Nat × UniformState) :=
  states.map (fun p => (p.1, f p.2))

/-- The per-uniform data that must survive a relink: name, cached value and
the initialized flag (everything except the native location). -/
def UniformState.view (us : UniformState) : Str × UniformValue × Bool :=
  (us.name, us.value, us.initialized)

/-- The uniform-state table `new` holds, under every key, an entry with the
same name, value and initialized flag as `old` (locations may differ). -/
def viewsPreserved (old new : List (Nat × UniformState)) : Prop :=
  ∀ k, (new.lookup k).map UniformState.view = (old.lookup k).map UniformState.view

/-- Concrete all-succeeding driver used for witnesses. -/
def exDriver : Driver where
  compile := fun _ => (true, [])
  linkOk := true
  linkLog := []
  validateOk := true
  validateLog := []
  uniformLoc := fun pid nm => Int.ofNat (pid + nm.length)
  useShaderCache := true

/-- Concrete driver whose compiler rejects everything with a diagnostic. -/
def exBadDriver : Driver :=
  { exDriver with compile := fun _ => (false, str "0:1: error") }

/-- Concrete empty filesystem used for witnesses. -/
def exFS : FileSys := fun _ => none

/-- Concrete inline-source shader object used for witnesses. -/
def exSO : GLSLShaderObject := { type := 1, srcData := str "void main() { }" }

/-- Concrete one-shader program object used for witnesses. -/
def exPO : GLSLProgramObject := { name := str "P", glid := 1, shaderObjs := [exSO] }

/-- Concrete previously-set uniform state used for witnesses. -/
def exUS : UniformState :=
  { name := str "color", value := .f3 1 0 0, initialized := true }

/-- Concrete program object with a previously-set `"color"` uniform, used
for witnesses. -/
def exPO2 : GLSLProgramObject :=
  { name := str "P", glid := 1, shaderObjs := [exSO],
    uniformStates := [(hashString (str "color"), exUS)] }

end SpringShader

/-! # Theorems -/

namespace SpringShader

/-- **C1**: on a bound `GLSLProgramObject`, a `SetUniform` call whose value
differs (per-component) from the cached state issues exactly one GPU
uniform write and caches the value; repeating the call with the same value
is a no-op that leaves the cached state unchanged, and a following call
with a per-component-different value issues a second GPU write and updates
the cache to the new value. -/
theorem setUniform_set_if_changed (po : GLSLProgramObject) (us : UniformState)
    (v w : UniformValue) (hb : po.IsBound = true)
    (hfresh : us.initialized = false ∨ us.value ≠ v) (hne : w ≠ v) :
    ((po.SetUniform us v).2.length = 1 ∧
     (po.SetUniform us v).1.value = v) ∧
    (po.SetUniform (po.SetUniform us v).1 v =
       ((po.SetUniform us v).1, [])) ∧
    ((po.SetUniform (po.SetUniform us v).1 w).2.length = 1 ∧
     (po.SetUniform (po.SetUniform us v).1 w).1.value = w) := by
  have h1 : us.Set v = (true, { us with value := v, initialized := true }) := by
    rcases hfresh with h | h
    · simp [UniformState.Set, h]
    · simp [UniformState.Set, h]
  have h2 : (po.SetUniform us v).1 = { us with value := v, initialized := true } := by
    simp [GLSLProgramObject.SetUniform, h1]
  refine ⟨⟨?_, ?_⟩, ?_, ?_, ?_⟩
  · simp [GLSLProgramObject.SetUniform, h1]
  · rw [h2]
  · rw [h2]; simp [GLSLProgramObject.SetUniform, UniformState.Set]
  · rw [h2]; simp [GLSLProgramObject.SetUniform, UniformState.Set, Ne.symm hne]
  · rw [h2]; simp [GLSLProgramObject.SetUniform, UniformState.Set, Ne.symm hne]

/-- Witness for `setUniform_set_if_changed` at a concrete bound program,
an uninitialized `"color"` state, `v = (1,0,0)` and `w = (0,1,0)`. -/
theorem setUniform_set_if_changed_witness :
    let po : GLSLProgramObject := { name := str "P", bound := true }
    let us : UniformState := { name := str "color" }
    ((po.SetUniform us (.f3 1 0 0)).2.length = 1 ∧
     (po.SetUniform us (.f3 1 0 0)).1.value = .f3 1 0 0) ∧
    (po.SetUniform (po.SetUniform us (.f3 1 0 0)).1 (.f3 1 0 0) =
       ((po.SetUniform us (.f3 1 0 0)).1, [])) ∧
    ((po.SetUniform (po.SetUniform us (.f3 1 0 0)).1 (.f3 0 1 0)).2.length = 1 ∧
     (po.SetUniform (po.SetUniform us (.f3 1 0 0)).1 (.f3 0 1 0)).1.value = .f3 0 1 0) :=
  setUniform_set_if_changed _ _ _ _ rfl (Or.inl rfl) (by decide)

/-- **C10**: an index-based uniform setter called with an index whose
registered name-hash has no entry in the uniform-state table is a silent
no-op: the program object is unchanged and no GPU write (or any other
event) is issued.  All index-based variants
(`SetUniform1i..4f`, `SetUniform2iv..4fv`, `SetUniformMatrix2fv..4fv`) are
definitionally instances of `SetUniformIdx` at the matching
`UniformValue`, so the statement covers every one of them. -/
theorem setUniformIdx_unregistered_noop (po : GLSLProgramObject) (idx h : Nat)
    (v : UniformValue) (hb : po.IsBound = true)
    (hidx : po.uniformLocs[idx]? = some h)
    (hmiss : po.uniformStates.lookup h = none) :
    po.SetUniformIdx idx v = (po, []) := by
  simp [GLSLProgramObject.SetUniformIdx, hidx, hmiss]

/-- Witness for `setUniformIdx_unregistered_noop`: a bound program whose
`uniformLocs[0]` hash (42) has no uniform-state entry; `SetUniform1i` at
index 0 changes nothing. -/
theorem setUniformIdx_unregistered_noop_witness :
    let po : GLSLProgramObject := { name := str "P", bound := true, uniformLocs := [42] }
    po.SetUniform1i 0 7 = (po, []) :=
  setUniformIdx_unregistered_noop _ 0 42 (.i1 7) rfl rfl rfl

/-- **C6**: `GetHash` is a deterministic function of exactly the triple
(source text, modifiable definition string, raw definition string): any two
shader objects agreeing on the triple (whatever their stage or source
descriptor) hash equal.  The hash is the fixed Hsieh avalanche hash seeded
with the constant 127 (see `GLSLShaderObject.GetHash`); that differing
triples collide only with overwhelming improbability is a probabilistic
statement about the avalanche behaviour and is not formalised. -/
theorem getHash_determined_by_triple (a b : GLSLShaderObject)
    (h1 : a.srcText = b.srcText) (h2 : a.modDefStrs = b.modDefStrs)
    (h3 : a.rawDefStrs = b.rawDefStrs) : a.GetHash = b.GetHash := by
  simp [GLSLShaderObject.GetHash, h1, h2, h3]

/-- Witness for `getHash_determined_by_triple`: two shader objects with
different stages and descriptors but identical triples. -/
theorem getHash_determined_by_triple_witness :
    ({ type := 1, srcData := str "a.vert", srcText := str "void main() { }" } :
      GLSLShaderObject).GetHash =
    ({ type := 2, srcData := str "b.frag", srcText := str "void main() { }" } :
      GLSLShaderObject).GetHash :=
  getHash_determined_by_triple _ _ rfl rfl rfl

/-! ## Lemmas about string search and version extraction -/

theorem isPrefixOfStr_length {pat s : Str} (h : isPrefixOfStr pat s = true) :
    pat.length ≤ s.length := by
  induction pat generalizing s with
  | nil => simp
  | cons p ps ih =>
    cases s with
    | nil => simp [isPrefixOfStr] at h
    | cons c cs =>
      simp only [isPrefixOfStr, Bool.and_eq_true] at h
      simpa using ih h.2

theorem findStr_le {s pat : Str} {pos : Nat} (h : findStr s pat = some pos) :
    pos + pat.length ≤ s.length := by
  induction s generalizing pos with
  | nil =>
    simp only [findStr] at h
    split at h
    · cases h
      simp_all [List.isEmpty_iff]
    · cases h
  | cons c cs ih =>
    simp only [findStr] at h
    split at h
    · cases h
      simpa using isPrefixOfStr_length (by assumption)
    · simp only [Option.map_eq_some'] at h
      obtain ⟨q, hq, rfl⟩ := h
      have := ih hq
      simp only [List.length_cons]
      omega

theorem findCharFrom_ge {s : Str} {c : Char} {start e : Nat}
    (h : findCharFrom s c start = some e) : start ≤ e := by
  simp only [findCharFrom] at h
  split at h
  · cases h; omega
  · cases h

/-- The version directive that `ExtractVersionDirective` cuts out of a
string containing one is never empty. -/
theorem extractVersion_ne_nil {src v : Str}
    (h : containsStr src (str "#version ") = true) :
    (ExtractVersionDirective src v).2.2 ≠ [] := by
  simp only [containsStr, Option.isSome_iff_exists] at h
  obtain ⟨pos, hpos⟩ := h
  have hle := findStr_le hpos
  have h9 : (str "#version ").length = 9 := rfl
  have hlt : pos < src.length := by omega
  simp only [ExtractVersionDirective, hpos]
  have hdrop : src.drop pos ≠ [] := by
    intro hcon
    have := List.drop_eq_nil_iff.mp hcon
    omega
  cases hfc : findCharFrom src '\n' pos with
  | some e =>
    have hge := findCharFrom_ge hfc
    simp only [subStr]
    intro hcon
    rcases List.take_eq_nil_iff.mp hcon with h0 | h0
    · exact Nat.not_succ_le_self e ((Nat.sub_eq_zero_iff_le.mp h0).trans hge)
    · exact hdrop h0
  | none =>
    simp only [subStr]
    intro hcon
    rcases List.take_eq_nil_iff.mp hcon with h0 | h0
    · exact absurd hlt (Nat.not_lt.mpr (Nat.sub_eq_zero_iff_le.mp h0))
    · exact hdrop h0


/-- When the scanned string contains a version directive, the result of
`ExtractVersionDirective` does not depend on the incoming `version`
accumulator: the found directive overwrites it. -/
theorem extractVersion_overwrites {src : Str} (v v' : Str)
    (h : containsStr src (str "#version ") = true) :
    (ExtractVersionDirective src v).2 = (ExtractVersionDirective src v').2 := by
  simp only [containsStr, Option.isSome_iff_exists] at h
  obtain ⟨pos, hpos⟩ := h
  simp [ExtractVersionDirective, hpos]

/-- **C7**: when both the source text and the combined definition string
contain a `#version` directive, the version line of the assembled source
is the directive extracted from the definitions (the source's own
directive is erased and does not survive), and the assembled source is the
ordered concatenation: version line, flag/definition lines, the `#line 1`
reset, and the (version-stripped) original source — each section preceded
by its inert `// SHADER ...` comment marker. -/
theorem version_directive_precedence (so : GLSLShaderObject)
    (hsrc : containsStr so.srcText (str "#version ") = true)
    (hdef : containsStr (so.rawDefStrs ++ str "\n" ++ so.modDefStrs)
      (str "#version ") = true) :
    (ExtractVersionDirective (so.rawDefStrs ++ str "\n" ++ so.modDefStrs) []).2.2 ≠ [] ∧
    so.AssembleSource =
      str "// SHADER VERSION\n" ++
      ensureEndsWith
        (ExtractVersionDirective (so.rawDefStrs ++ str "\n" ++ so.modDefStrs) []).2.2 '\n' ++
      str "// SHADER FLAGS\n" ++
      (let df := (ExtractVersionDirective (so.rawDefStrs ++ str "\n" ++ so.modDefStrs) []).2.1
       if df.isEmpty then df else ensureEndsWith df '\n') ++
      str "// SHADER SOURCE\n" ++ str "#line 1\n" ++
      (ExtractVersionDirective so.srcText []).2.1 := by
  constructor
  · exact extractVersion_ne_nil hdef
  · have hvne := extractVersion_ne_nil (v := (ExtractVersionDirective so.srcText []).2.2) hdef
    simp only [GLSLShaderObject.AssembleSource]
    obtain ⟨ps, hps⟩ := Option.isSome_iff_exists.mp hsrc
    obtain ⟨pd, hpd⟩ := Option.isSome_iff_exists.mp hdef
    simp only [ExtractVersionDirective, hps, hpd] at hvne ⊢
    simp only [List.isEmpty_iff, hvne, if_false]

/-- Witness for `version_directive_precedence` on a shader with
`#version 130` in its source text and `#version 430` in its raw
definitions: the retained line is the `430` one. -/
theorem version_directive_precedence_witness :
    let so : GLSLShaderObject :=
      { type := 1, srcData := str "x.vert",
        srcText := str "#version 130\nvoid main() { }",
        rawDefStrs := str "#version 430\n#define A 1\n" }
    (ExtractVersionDirective (so.rawDefStrs ++ str "\n" ++ so.modDefStrs) []).2.2 ≠ [] ∧
    so.AssembleSource =
      str "// SHADER VERSION\n" ++
      ensureEndsWith
        (ExtractVersionDirective (so.rawDefStrs ++ str "\n" ++ so.modDefStrs) []).2.2 '\n' ++
      str "// SHADER FLAGS\n" ++
      (let df := (ExtractVersionDirective (so.rawDefStrs ++ str "\n" ++ so.modDefStrs) []).2.1
       if df.isEmpty then df else ensureEndsWith df '\n') ++
      str "// SHADER SOURCE\n" ++ str "#line 1\n" ++
      (ExtractVersionDirective so.srcText []).2.1 :=
  version_directive_precedence _ (by decide) (by decide)

/-- **C9**: `ReloadFromTextOrFile` resolves the source as follows and
returns `true` exactly when the resolved text differs from the stored
source text: a descriptor containing the `void main()` marker is used
verbatim; otherwise the file `shaders/<descriptor>` is read; when that
file does not exist the resolved source is empty and an error is logged.
In every case the stored source text afterwards equals the resolved
text. -/
theorem reloadFromTextOrFile_spec (fs : FileSys) (so : GLSLShaderObject) :
    ((so.ReloadFromTextOrFile fs).1 = true ↔
       (GetShaderSource fs so.srcData).1 ≠ so.srcText) ∧
    ((so.ReloadFromTextOrFile fs).2.1).srcText = (GetShaderSource fs so.srcData).1 ∧
    (containsStr so.srcData mainMarker = true →
       (GetShaderSource fs so.srcData).1 = so.srcData) ∧
    (containsStr so.srcData mainMarker = false →
       ∀ c, fs (str "shaders/" ++ so.srcData) = some c →
         (GetShaderSource fs so.srcData).1 = c) ∧
    (containsStr so.srcData mainMarker = false →
       fs (str "shaders/" ++ so.srcData) = none →
         (GetShaderSource fs so.srcData).1 = [] ∧
         (GetShaderSource fs so.srcData).2 ≠ []) := by
  refine ⟨?_, ?_, ?_, ?_, ?_⟩
  · rcases hg : GetShaderSource fs so.srcData with ⟨nt, evs⟩
    simp only [GLSLShaderObject.ReloadFromTextOrFile, hg]
    by_cases h : nt = so.srcText <;> simp [h]
  · rcases hg : GetShaderSource fs so.srcData with ⟨nt, evs⟩
    simp only [GLSLShaderObject.ReloadFromTextOrFile, hg]
    by_cases h : nt = so.srcText <;> simp [h]
  · intro h
    simp [GetShaderSource, h]
  · intro h c hc
    simp [GetShaderSource, h, hc]
  · intro h hnone
    simp [GetShaderSource, h, hnone]

/-- Witness for `reloadFromTextOrFile_spec`: an inline-source shader
object with empty stored text reloads to `true` (the marker text is taken
verbatim and differs from the stored text). -/
theorem reloadFromTextOrFile_spec_witness :
    (exSO.ReloadFromTextOrFile exFS).1 = true :=
  ((reloadFromTextOrFile_spec exFS exSO).1).mpr (by decide)

/-- **C8**: when the shader-object list is empty, `Reload` marks the
program invalid and returns immediately: the cache and the id supply are
untouched, the native handle is unchanged, and no event at all (no cache
lookup, no compile, no link) is emitted — the failure is local to this
program object. -/
theorem reload_no_shader_objects (driver : Driver) (fs : FileSys)
    (force validate : Bool) (po : GLSLProgramObject) (cache : ShaderCache)
    (nextId : Nat) (hempty : po.shaderObjs = []) :
    ((po.Reload driver fs force validate cache nextId).po.valid = false) ∧
    (po.Reload driver fs force validate cache nextId).po.glid = po.glid ∧
    (po.Reload driver fs force validate cache nextId).cache = cache ∧
    (po.Reload driver fs force validate cache nextId).nextId = nextId ∧
    (po.Reload driver fs force validate cache nextId).events = [] := by
  simp [GLSLProgramObject.Reload, GLSLProgramObject.ReloadState,
    ClearUniformLocations, SetShaderDefinitions, ReloadShaderObjects,
    reloadAllShaderObjects, RecalculateShaderHash, hempty]

/-- Witness for `reload_no_shader_objects` at a concrete shaderless
program object. -/
theorem reload_no_shader_objects_witness :
    let po : GLSLProgramObject := { name := str "P", glid := 3, valid := true }
    ((po.Reload exDriver exFS false true [] 10).po.valid = false) ∧
    (po.Reload exDriver exFS false true [] 10).po.glid = po.glid ∧
    (po.Reload exDriver exFS false true [] 10).cache = [] ∧
    (po.Reload exDriver exFS false true [] 10).nextId = 10 ∧
    (po.Reload exDriver exFS false true [] 10).events = [] :=
  reload_no_shader_objects exDriver exFS false true _ [] 10 rfl

end SpringShader

namespace SpringShader

/-! ## Structural lemmas about the reload pipeline -/

theorem lookup_mapVals (f : UniformState → UniformState)
    (l : List (Nat × UniformState)) (k : Nat) :
    (mapVals f l).lookup k = (l.lookup k).map f := by
  induction l with
  | nil => rfl
  | cons p rest ih =>
    rcases p with ⟨a, b⟩
    cases h : (k == a)
    · simpa [mapVals, List.lookup, h] using ih
    · simp [mapVals, List.lookup, h]

theorem viewsPreserved_mapVals (f : UniformState → UniformState)
    (hf : ∀ us, (f us).view = us.view) (l : List (Nat × UniformState)) :
    viewsPreserved l (mapVals f l) := by
  intro k
  rw [lookup_mapVals]
  cases l.lookup k <;> simp [hf]

theorem viewsPreserved_refl (l : List (Nat × UniformState)) :
    viewsPreserved l l := fun _ => rfl

theorem viewsPreserved_trans {a b c : List (Nat × UniformState)}
    (h1 : viewsPreserved a b) (h2 : viewsPreserved b c) : viewsPreserved a c :=
  fun k => (h2 k).trans (h1 k)

theorem view_setLocation (us : UniformState) (loc : Int) :
    (us.SetLocation loc).view = us.view := rfl

/-- `ReloadState` produces the incoming program object with a cleared log,
all uniform locations invalidated, updated shader flags, and some new
shader-object list and hash. -/
theorem reloadState_shape (fs : FileSys) (po : GLSLProgramObject) (b : Bool) :
    ∃ objs h,
      (po.ReloadState fs b).2.1 =
        { po with
          log := []
          uniformStates := mapVals (fun us => us.SetLocation GL_INVALID_INDEX) po.uniformStates
          shaderFlags := (po.shaderFlags.UpdateHash).2
          shaderObjs := objs
          hash := h } := by
  cases b
  · exact ⟨_, _, rfl⟩
  · exact ⟨_, _, rfl⟩

/-- `CreateAndLink` only changes the native handle and the log. -/
theorem createAndLink_shape (driver : Driver) (po : GLSLProgramObject) (nextId : Nat) :
    ∃ l, (GLSLProgramObject.CreateAndLink driver po nextId).2.1 =
      { po with glid := nextId + 1, log := l } := by
  simp only [GLSLProgramObject.CreateAndLink]
  split
  · exact ⟨_, rfl⟩
  · exact ⟨_, rfl⟩

/-- `ValidateAndCopyUniforms` only changes the log and the uniform-state
table, and the new table preserves every entry's name, value and
initialized flag. -/
theorem vcu_shape (driver : Driver) (po : GLSLProgramObject)
    (tgt src : Nat) (validate : Bool) :
    ∃ l ust,
      (po.ValidateAndCopyUniforms driver tgt src validate).2.1 =
        { po with log := l, uniformStates := ust } ∧
      viewsPreserved po.uniformStates ust := by
  cases validate
  · simp only [GLSLProgramObject.ValidateAndCopyUniforms, GLSLProgramObject.Validate,
      Bool.false_eq_true, if_false]
    split
    · exact ⟨_, _, rfl, viewsPreserved_mapVals
        (fun us => us.SetLocation (driver.uniformLoc tgt us.name)) (fun _ => rfl) _⟩
    · exact ⟨_, _, rfl, viewsPreserved_refl _⟩
  · simp only [GLSLProgramObject.ValidateAndCopyUniforms, GLSLProgramObject.Validate,
      if_true]
    split
    · exact ⟨_, _, rfl, viewsPreserved_mapVals
        (fun us => us.SetLocation (driver.uniformLoc tgt us.name)) (fun _ => rfl) _⟩
    · exact ⟨_, _, rfl, viewsPreserved_refl _⟩

end SpringShader

namespace SpringShader

/-- `reloadUpdateProg` only changes the native handle and the log of the
incoming program object. -/
theorem reloadUpdateProg_shape (driver : Driver) (useCache : Bool)
    (cache : ShaderCache) (po1 : GLSLProgramObject) (nextId : Nat) :
    ∃ g l, (reloadUpdateProg driver useCache cache po1 nextId).2.1 =
      { po1 with glid := g, log := l } := by
  cases hc : (if useCache then cache.Find po1.hash else 0) != 0
  · simp only [reloadUpdateProg, hc]
    obtain ⟨l, h⟩ := createAndLink_shape driver { po1 with glid := 0 } nextId
    exact ⟨_, _, by rw [if_neg Bool.false_ne_true]; exact h⟩
  · simp only [reloadUpdateProg, hc]
    exact ⟨_, _, by rw [if_true]⟩

/-- `reloadFinish` only changes the log, the uniform-state table and the
validity flag, and preserves every uniform entry's view. -/
theorem reloadFinish_shape (driver : Driver) (validate isValid : Bool)
    (oldGlid : Nat) (upd : Bool × GLSLProgramObject × List GLEvent × Nat) :
    ∃ l ust v,
      (reloadFinish driver validate isValid oldGlid upd).1 =
        { upd.2.1 with log := l, uniformStates := ust, valid := v } ∧
      viewsPreserved upd.2.1.uniformStates ust := by
  cases hc : upd.1
  · simp only [reloadFinish, hc]
    exact ⟨upd.2.1.log, upd.2.1.uniformStates, false,
      by rw [if_neg Bool.false_ne_true], viewsPreserved_refl _⟩
  · simp only [reloadFinish, hc]
    obtain ⟨l, ust, h, hv⟩ := vcu_shape driver upd.2.1 upd.2.1.glid
      (if isValid then oldGlid else 0) validate
    refine ⟨l, ust, true, ?_, hv⟩
    rw [if_true]
    rw [h]

/-- `cacheRetire` hands back exactly the program object it was given. -/
theorem cacheRetire_po (useCache : Bool) (cache : ShaderCache)
    (oldHash oldGlid : Nat) (po3 : GLSLProgramObject) (nid : Nat)
    (evs : List GLEvent) :
    (cacheRetire useCache cache oldHash oldGlid po3 nid evs).po = po3 := by
  simp only [cacheRetire]
  split
  · split
    · rfl
    · split <;> rfl
  · split <;> rfl

end SpringShader

namespace SpringShader

/-- Master shape of `Reload`: the resulting program object is the incoming
one with some new handle, hash, log, validity flag and uniform-state table
— the table preserving every entry's name, value and initialized flag —
while the shader objects come from `ReloadState` and the shader flags have
their hash updated. -/
theorem reload_po_shape (driver : Driver) (fs : FileSys) (force validate : Bool)
    (po : GLSLProgramObject) (cache : ShaderCache) (nextId : Nat) :
    ∃ g h l v ust,
      (po.Reload driver fs force validate cache nextId).po =
        { po with
          glid := g
          hash := h
          log := l
          valid := v
          uniformStates := ust
          shaderObjs :=
            ((po.ReloadState fs (force || !po.valid || (po.glid == 0))).2.1).shaderObjs
          shaderFlags := (po.shaderFlags.UpdateHash).2 } ∧
      viewsPreserved po.uniformStates ust := by
  obtain ⟨objs0, hsh0, hrs⟩ := reloadState_shape fs po (force || !po.valid || (po.glid == 0))
  cases hok : (po.ReloadState fs (force || !po.valid || (po.glid == 0))).1
  · simp only [GLSLProgramObject.Reload, hok, Bool.not_false]
    rw [if_true]
    rw [hrs]
    exact ⟨_, _, _, _, _, rfl,
      viewsPreserved_mapVals (fun us => us.SetLocation GL_INVALID_INDEX)
        (fun _ => rfl) po.uniformStates⟩
  · simp only [GLSLProgramObject.Reload, hok, Bool.not_true]
    rw [if_neg Bool.false_ne_true]
    rw [cacheRetire_po]
    obtain ⟨g1, l1, hupd⟩ := reloadUpdateProg_shape driver
      (po.valid && driver.useShaderCache) cache
      ((po.ReloadState fs (force || !po.valid || (po.glid == 0))).2.1) nextId
    obtain ⟨l2, ust2, v2, hfin, hv2⟩ := reloadFinish_shape driver validate po.valid
      po.glid (reloadUpdateProg driver (po.valid && driver.useShaderCache) cache
        ((po.ReloadState fs (force || !po.valid || (po.glid == 0))).2.1) nextId)
    rw [hfin, hupd, hrs]
    refine ⟨g1, _, l2, v2, ust2, rfl, ?_⟩
    rw [hupd, hrs] at hv2
    exact viewsPreserved_trans
      (viewsPreserved_mapVals (fun us => us.SetLocation GL_INVALID_INDEX)
        (fun _ => rfl) po.uniformStates) hv2

/-- The shader flags after any `Reload` have their hash set to the hash of
the (unchanged) definition string. -/
theorem reload_shaderFlags (driver : Driver) (fs : FileSys)
    (force validate : Bool) (po : GLSLProgramObject) (cache : ShaderCache)
    (nextId : Nat) :
    (po.Reload driver fs force validate cache nextId).po.shaderFlags =
      (po.shaderFlags.UpdateHash).2 := by
  obtain ⟨g, h, l, v, ust, heq, _⟩ :=
    reload_po_shape driver fs force validate po cache nextId
  rw [heq]

/-- Any `Reload` preserves the name, cached value and initialized flag of
every entry of the uniform-state table. -/
theorem reload_viewsPreserved (driver : Driver) (fs : FileSys)
    (force validate : Bool) (po : GLSLProgramObject) (cache : ShaderCache)
    (nextId : Nat) :
    viewsPreserved po.uniformStates
      (po.Reload driver fs force validate cache nextId).po.uniformStates := by
  obtain ⟨g, h, l, v, ust, heq, hv⟩ :=
    reload_po_shape driver fs force validate po cache nextId
  rw [heq]
  exact hv

end SpringShader

namespace SpringShader

/-- `MaybeReload` with a set and unchanged flags hash is a no-op. -/
theorem maybeReload_skip (driver : Driver) (fs : FileSys) (validate : Bool)
    (po : GLSLProgramObject) (cache : ShaderCache) (nextId : Nat)
    (h1 : po.shaderFlags.HashSet = true) (h2 : po.shaderFlags.Updated = false) :
    po.MaybeReload driver fs validate cache nextId = ⟨po, cache, nextId, []⟩ := by
  simp [GLSLProgramObject.MaybeReload, h1, h2]

/-- **C5**: when the definition-flags hash has been set and the flags did
not change, `MaybeReload` is a no-op (same program object, same cache, same
id supply, empty event trace); and in all cases a second `MaybeReload`
immediately following a first one is such a no-op, so two calls in a row
with unchanged flags perform at most one actual recompilation. -/
theorem maybeReload_skip_and_idempotent (driver : Driver) (fs : FileSys)
    (validate : Bool) (po : GLSLProgramObject) (cache : ShaderCache)
    (nextId : Nat) :
    (po.shaderFlags.HashSet = true → po.shaderFlags.Updated = false →
       po.MaybeReload driver fs validate cache nextId = ⟨po, cache, nextId, []⟩) ∧
    ((po.MaybeReload driver fs validate cache nextId).po.MaybeReload driver fs
        validate (po.MaybeReload driver fs validate cache nextId).cache
        (po.MaybeReload driver fs validate cache nextId).nextId =
      ⟨(po.MaybeReload driver fs validate cache nextId).po,
       (po.MaybeReload driver fs validate cache nextId).cache,
       (po.MaybeReload driver fs validate cache nextId).nextId, []⟩) := by
  constructor
  · exact maybeReload_skip driver fs validate po cache nextId
  · by_cases hc : (po.shaderFlags.HashSet && !po.shaderFlags.Updated) = true
    · rw [Bool.and_eq_true, Bool.not_eq_true'] at hc
      have hr1 : po.MaybeReload driver fs validate cache nextId =
          ⟨po, cache, nextId, []⟩ :=
        maybeReload_skip driver fs validate po cache nextId hc.1 hc.2
      rw [hr1]
      exact maybeReload_skip driver fs validate po cache nextId hc.1 hc.2
    · have hr1 : po.MaybeReload driver fs validate cache nextId =
          po.Reload driver fs (!po.shaderFlags.HashSet) validate cache nextId := by
        simp only [GLSLProgramObject.MaybeReload]
        rw [if_neg hc]
      have hf : (po.MaybeReload driver fs validate cache nextId).po.shaderFlags =
          (po.shaderFlags.UpdateHash).2 := by
        rw [hr1]
        exact reload_shaderFlags driver fs (!po.shaderFlags.HashSet) validate po
          cache nextId
      have h1 : (po.MaybeReload driver fs validate cache nextId).po.shaderFlags.HashSet
          = true := by
        rw [hf]; rfl
      have h2 : (po.MaybeReload driver fs validate cache nextId).po.shaderFlags.Updated
          = false := by
        rw [hf]
        simp [ShaderFlags.Updated, ShaderFlags.UpdateHash]
      exact maybeReload_skip driver fs validate _ _ _ h1 h2

/-- Witness for `maybeReload_skip_and_idempotent` at a concrete program
whose flags hash is set and unchanged: the call is a no-op. -/
theorem maybeReload_skip_witness :
    let po : GLSLProgramObject :=
      { name := str "P", glid := 1, shaderObjs := [exSO],
        shaderFlags := { defs := [], fhash := hashString [], hashSet := true } }
    po.MaybeReload exDriver exFS true [] 10 = ⟨po, [], 10, []⟩ :=
  (maybeReload_skip_and_idempotent exDriver exFS true _ [] 10).1 rfl (by decide)

/-- **C2**: a `Reload` that ends with the program valid keeps every
previously-set uniform entry in the uniform-state table under its
name-hash, with the same name, cached value and initialized flag (only the
native location is re-resolved); the caller does not have to re-set it. -/
theorem reload_preserves_uniform_values (driver : Driver) (fs : FileSys)
    (force validate : Bool) (po : GLSLProgramObject) (cache : ShaderCache)
    (nextId : Nat) (k : Nat) (us : UniformState)
    (hlk : po.uniformStates.lookup k = some us)
    (hvalid : (po.Reload driver fs force validate cache nextId).po.valid = true) :
    ∃ us',
      (po.Reload driver fs force validate cache nextId).po.uniformStates.lookup k
        = some us' ∧
      us'.name = us.name ∧ us'.value = us.value ∧
      us'.initialized = us.initialized := by
  have hv := reload_viewsPreserved driver fs force validate po cache nextId k
  rw [hlk] at hv
  cases hnew : (po.Reload driver fs force validate cache nextId).po.uniformStates.lookup k with
  | none => rw [hnew] at hv; simp at hv
  | some us' =>
    rw [hnew] at hv
    simp only [Option.map_some', Option.some.injEq, UniformState.view,
      Prod.mk.injEq] at hv
    exact ⟨us', rfl, hv.1, hv.2.1, hv.2.2⟩

/-- Witness for `reload_preserves_uniform_values`: a concrete program with
`"color" = (1,0,0)` cached reloads successfully and still maps the
`"color"` hash to the same value. -/
theorem reload_preserves_uniform_values_witness :
    ∃ us',
      (exPO2.Reload exDriver exFS true true [] 10).po.uniformStates.lookup
        (hashString (str "color")) = some us' ∧
      us'.name = exUS.name ∧ us'.value = exUS.value ∧
      us'.initialized = exUS.initialized :=
  reload_preserves_uniform_values exDriver exFS true true exPO2 [] 10
    (hashString (str "color")) exUS (by rfl) (by rfl)

end SpringShader

namespace SpringShader

/-! ## Lemmas about failing compilation -/

theorem compileAttachAll_ok_false (driver : Driver) (progId : Nat)
    (objs : List GLSLShaderObject) (plog : Str) (evs : List GLEvent) (nid : Nat) :
    (compileAttachAll driver progId objs false plog evs nid).1 = false := by
  induction objs generalizing plog evs nid with
  | nil => rfl
  | cons so rest ih =>
    simp only [compileAttachAll]
    split
    · exact ih _ _ _
    · exact ih _ _ _

theorem compileAttachAll_fail (driver : Driver) (progId : Nat)
    (objs : List GLSLShaderObject) (ok : Bool) (plog : Str) (evs : List GLEvent)
    (nid : Nat)
    (hfail : ∃ so ∈ objs, (driver.compile so.AssembleSource).1 = false) :
    (compileAttachAll driver progId objs ok plog evs nid).1 = false := by
  induction objs generalizing ok plog evs nid with
  | nil => simp at hfail
  | cons so rest ih =>
    simp only [compileAttachAll]
    cases hc : (driver.compile so.AssembleSource).1
    · simp only [GLSLShaderObject.CreateAndCompileShaderObject, hc]
      rw [if_neg Bool.false_ne_true, if_neg Bool.false_ne_true]
      exact compileAttachAll_ok_false driver progId rest _ _ _
    · rcases hfail with ⟨so', hmem, hf⟩
      rcases List.mem_cons.mp hmem with rfl | hmem'
      · rw [hc] at hf; cases hf
      · simp only [GLSLShaderObject.CreateAndCompileShaderObject, hc]
        rw [if_true, if_pos rfl]
        exact ih ok _ _ _ ⟨so', hmem', hf⟩

theorem compileAttachAll_log_ne_nil (driver : Driver) (progId : Nat)
    (objs : List GLSLShaderObject) (ok : Bool) (plog : Str) (evs : List GLEvent)
    (nid : Nat)
    (hlog : ∀ s, (driver.compile s).1 = false → (driver.compile s).2 ≠ [])
    (h : plog ≠ [] ∨ ∃ so ∈ objs, (driver.compile so.AssembleSource).1 = false) :
    (compileAttachAll driver progId objs ok plog evs nid).2.1 ≠ [] := by
  induction objs generalizing ok plog evs nid with
  | nil =>
    rcases h with h | h
    · simpa [compileAttachAll] using h
    · simp at h
  | cons so rest ih =>
    simp only [compileAttachAll]
    cases hc : (driver.compile so.AssembleSource).1
    · simp only [GLSLShaderObject.CreateAndCompileShaderObject, hc]
      rw [if_neg Bool.false_ne_true, if_neg Bool.false_ne_true]
      apply ih
      left
      intro hcon
      rcases List.append_eq_nil.mp hcon with ⟨_, h2⟩
      exact hlog _ hc h2
    · simp only [GLSLShaderObject.CreateAndCompileShaderObject, hc]
      rw [if_true, if_pos rfl]
      apply ih
      rcases h with h | ⟨so', hmem, hf⟩
      · exact Or.inl h
      · rcases List.mem_cons.mp hmem with rfl | hmem'
        · rw [hc] at hf; cases hf
        · exact Or.inr ⟨so', hmem', hf⟩

theorem compileAttachAll_no_link (driver : Driver) (progId : Nat)
    (objs : List GLSLShaderObject) (ok : Bool) (plog : Str) (evs : List GLEvent)
    (nid : Nat) (idp : Nat)
    (h : GLEvent.linkProgram idp ∉ evs) :
    GLEvent.linkProgram idp ∉ (compileAttachAll driver progId objs ok plog evs nid).2.2.1 := by
  induction objs generalizing ok plog evs nid with
  | nil => simpa [compileAttachAll] using h
  | cons so rest ih =>
    simp only [compileAttachAll]
    cases hc : (driver.compile so.AssembleSource).1
    · simp only [GLSLShaderObject.CreateAndCompileShaderObject, hc]
      rw [if_neg Bool.false_ne_true, if_neg Bool.false_ne_true]
      apply ih
      simp [h]
    · simp only [GLSLShaderObject.CreateAndCompileShaderObject, hc]
      rw [if_true, if_pos rfl]
      apply ih
      simp [h]

/-- Link failure packaging: when some shader object fails to compile,
`CreateAndLink` reports failure, leaves a non-empty log, installs the fresh
program id and never links. -/
theorem createAndLink_fail (driver : Driver) (po : GLSLProgramObject)
    (nextId : Nat)
    (hfail : ∃ so ∈ po.shaderObjs, (driver.compile so.AssembleSource).1 = false)
    (hlog : ∀ s, (driver.compile s).1 = false → (driver.compile s).2 ≠ []) :
    (GLSLProgramObject.CreateAndLink driver po nextId).1 = false ∧
    (GLSLProgramObject.CreateAndLink driver po nextId).2.1.log ≠ [] ∧
    (GLSLProgramObject.CreateAndLink driver po nextId).2.1.glid = nextId + 1 ∧
    (∀ idp, GLEvent.linkProgram idp ∉
      (GLSLProgramObject.CreateAndLink driver po nextId).2.2.1) := by
  have hca := compileAttachAll_fail driver (nextId + 1) po.shaderObjs true po.log
    [GLEvent.createProgram (nextId + 1)] (nextId + 1 + 1) hfail
  have hlg := compileAttachAll_log_ne_nil driver (nextId + 1) po.shaderObjs true
    po.log [GLEvent.createProgram (nextId + 1)] (nextId + 1 + 1) hlog (Or.inr hfail)
  have hnl := fun idp => compileAttachAll_no_link driver (nextId + 1) po.shaderObjs
    true po.log [GLEvent.createProgram (nextId + 1)] (nextId + 1 + 1) idp (by simp)
  simp only [GLSLProgramObject.CreateAndLink, hca, Bool.not_false]
  rw [if_true]
  exact ⟨rfl, hlg, rfl, hnl⟩

/-- `reloadFinish` on a failed link marks the program invalid and emits
nothing. -/
theorem reloadFinish_fail (driver : Driver) (validate isValid : Bool)
    (oldGlid : Nat) (upd : Bool × GLSLProgramObject × List GLEvent × Nat)
    (h : upd.1 = false) :
    reloadFinish driver validate isValid oldGlid upd =
      ({ upd.2.1 with valid := false }, []) := by
  simp only [reloadFinish, h]
  rw [if_neg Bool.false_ne_true]

end SpringShader

namespace SpringShader

/-! ## Event-trace lemmas for the reload path -/

theorem reloadFromTextOrFile_events (fs : FileSys) (so : GLSLShaderObject) :
    (so.ReloadFromTextOrFile fs).2.2 = (GetShaderSource fs so.srcData).2 := by
  rcases hg : GetShaderSource fs so.srcData with ⟨nt, evs⟩
  simp only [GLSLShaderObject.ReloadFromTextOrFile, hg]
  split <;> rfl

theorem getShaderSource_events (fs : FileSys) (d : Str) :
    ∀ e ∈ (GetShaderSource fs d).2, ∃ m, e = GLEvent.logError m := by
  intro e he
  simp only [GetShaderSource] at he
  split at he
  · simp at he
  · split at he
    · simp at he
    · simp at he
      exact ⟨_, he⟩

theorem reloadAllShaderObjects_events (fs : FileSys) (l : List GLSLShaderObject) :
    ∀ e ∈ (reloadAllShaderObjects fs l).2, ∃ m, e = GLEvent.logError m := by
  induction l with
  | nil => simp [reloadAllShaderObjects]
  | cons so rest ih =>
    intro e he
    simp only [reloadAllShaderObjects, List.mem_append] at he
    rcases he with he | he
    · rw [reloadFromTextOrFile_events] at he
      exact getShaderSource_events fs so.srcData e he
    · exact ih e he

theorem reloadState_events (fs : FileSys) (po : GLSLProgramObject) (b : Bool) :
    ∀ e ∈ (po.ReloadState fs b).2.2, ∃ m, e = GLEvent.logError m := by
  cases b
  · intro e he
    simp [GLSLProgramObject.ReloadState] at he
  · intro e he
    simp only [GLSLProgramObject.ReloadState, ReloadShaderObjects, if_true] at he
    exact reloadAllShaderObjects_events fs _ e he

theorem cacheRetire_no_link (useCache : Bool) (cache : ShaderCache)
    (oldHash oldGlid : Nat) (po3 : GLSLProgramObject) (nid : Nat)
    (evs : List GLEvent) (idp : Nat)
    (h : GLEvent.linkProgram idp ∉ evs) :
    GLEvent.linkProgram idp ∉
      (cacheRetire useCache cache oldHash oldGlid po3 nid evs).events := by
  simp only [cacheRetire]
  split
  · split
    · simp [h]
    · split <;> simp [h]
  · split <;> simp [h]

end SpringShader

namespace SpringShader

/-- **C3 (counterexample)**: a fresh program whose only shader fails to
compile: after `Reload` the validity flag is false and the log is
non-empty as the claim says, but a native program handle *is* allocated —
`CreateAndLink` calls `glCreateProgram` before compiling, and the failed
reload leaves that fresh non-zero handle in `glid`, refuting "no native
program handle allocated". -/
theorem reload_compile_failure_counterexample :
    ((exPO.Reload exBadDriver exFS false true [] 10).po.valid = false) ∧
    ((exPO.Reload exBadDriver exFS false true [] 10).po.log ≠ []) ∧
    ¬ ((exPO.Reload exBadDriver exFS false true [] 10).po.glid = 0) := by
  decide

/-- **C3 (amended)**: for a program reaching the compile path (here: one
whose validity flag is down, so the cache is bypassed) with some shader
object failing to compile — failing compiles producing a diagnostic —
`Reload` leaves the validity flag false and the diagnostic log non-empty,
and the program is never linked; however a fresh native program handle
(`nextId + 1`, never zero) is created by `glCreateProgram` and left in
`glid`. -/
theorem reload_compile_failure (driver : Driver) (fs : FileSys)
    (force validate : Bool) (po : GLSLProgramObject) (cache : ShaderCache)
    (nextId : Nat)
    (hvalid : po.valid = false)
    (hok : (po.ReloadState fs true).1 = true)
    (hfail : ∃ so ∈ (po.ReloadState fs true).2.1.shaderObjs,
        (driver.compile so.AssembleSource).1 = false)
    (hlog : ∀ s, (driver.compile s).1 = false → (driver.compile s).2 ≠ []) :
    ((po.Reload driver fs force validate cache nextId).po.valid = false) ∧
    (po.Reload driver fs force validate cache nextId).po.log ≠ [] ∧
    (po.Reload driver fs force validate cache nextId).po.glid = nextId + 1 ∧
    (∀ idp, GLEvent.linkProgram idp ∉
      (po.Reload driver fs force validate cache nextId).events) := by
  have hcond : (force || !po.valid || (po.glid == 0)) = true := by
    rw [hvalid]; simp
  have hcal := createAndLink_fail driver
    { (po.ReloadState fs true).2.1 with glid := 0 } nextId hfail hlog
  have hupd : reloadUpdateProg driver false cache (po.ReloadState fs true).2.1 nextId =
      GLSLProgramObject.CreateAndLink driver
        { (po.ReloadState fs true).2.1 with glid := 0 } nextId := by
    simp only [reloadUpdateProg]
    rw [if_neg Bool.false_ne_true]
    rw [if_neg (by decide : ¬ (((0 : Nat) != 0) = true))]
  simp only [GLSLProgramObject.Reload]
  rw [hcond, hvalid]
  simp only [Bool.false_and, hok, Bool.not_true]
  rw [if_neg Bool.false_ne_true]
  rw [if_neg Bool.false_ne_true]
  rw [hupd]
  rw [reloadFinish_fail driver validate false po.glid _ hcal.1]
  refine ⟨?_, ?_, ?_, ?_⟩
  · rw [cacheRetire_po]
  · rw [cacheRetire_po]
    exact hcal.2.1
  · rw [cacheRetire_po]
    exact hcal.2.2.1
  · intro idp
    apply cacheRetire_no_link
    simp only [List.append_nil, List.mem_append, not_or]
    refine ⟨?_, ?_⟩
    · intro hin
      obtain ⟨m, hm⟩ := reloadState_events fs po true _ hin
      exact absurd hm (by simp)
    · exact hcal.2.2.2 idp

/-- Witness for `reload_compile_failure`: the concrete fresh program with
one inline shader under the everything-fails driver. -/
theorem reload_compile_failure_witness :
    ((exPO.Reload exBadDriver exFS false true [] 10).po.valid = false) ∧
    (exPO.Reload exBadDriver exFS false true [] 10).po.log ≠ [] ∧
    (exPO.Reload exBadDriver exFS false true [] 10).po.glid = 10 + 1 ∧
    (∀ idp, GLEvent.linkProgram idp ∉
      (exPO.Reload exBadDriver exFS false true [] 10).events) :=
  reload_compile_failure exBadDriver exFS false true exPO [] 10 rfl (by decide)
    (by decide) (fun s _ => by simp [exBadDriver, exDriver, str])

/-- **C4 (counterexample)**: `Enable` on a program whose reload fails (all
compiles rejected) still marks the program bound while its validity flag is
false — refuting "never bound while invalid / after Enable, bound implies
valid". -/
theorem enable_bound_while_invalid_counterexample :
    ((exPO.Enable exBadDriver exFS [] 10).po.bound = true) ∧
    ((exPO.Enable exBadDriver exFS [] 10).po.valid = false) := by
  decide

/-- **C4 (amended)**: `Enable` marks the program bound unconditionally —
whatever the outcome of the reload it triggers — so after `Enable()` the
program is bound, and bound-implies-valid holds only when that reload left
the validity flag true. -/
theorem enable_sets_bound_unconditionally (driver : Driver) (fs : FileSys)
    (po : GLSLProgramObject) (cache : ShaderCache) (nextId : Nat) :
    (po.Enable driver fs cache nextId).po.bound = true := rfl

end SpringShader
